import Mathlib

/-!
Verification development for the `github-runner-image-builder` sources.

Python modules embedded (shallowly) here:
- `src/github_runner_image_builder/config.py` — `Arch`, `BaseImage`, `Snap`,
  `ImageConfig`, `get_supported_arch`;
- `src/github_runner_image_builder/errors.py` — the exception class hierarchy;
- `src/github_runner_image_builder/cli.py` — the `run` command's local branch
  and its callback step;
- `src/github_runner_image_builder/openstack_builder.py` — the external
  builder's `run` orchestration.

Python strings that are split or lower-cased are modelled as `List Char`
(so that `str.split` becomes an inductively analysable function); strings
only compared for equality stay `String`.  Python exceptions become
`Except PyErr` results.
-/

namespace GithubRunnerImageBuilder

/-- Python exception values that the embedded code can raise:
`ValueError` (enum/parse failures), `TypeError` (bad keyword arguments to a
dataclass constructor), `subprocess.CalledProcessError` (from
`subprocess.check_call`), and `errors.UnsupportedArchitectureError`. -/
inductive PyErr where
  | valueError
  | typeError
  | calledProcessError
  | unsupportedArchitectureError
deriving DecidableEq, Repr

/-- Embeds `config.Arch` (config.py lines 17-26): enumeration of the two
supported system architectures. -/
inductive Arch where
  | ARM64
  | X64
deriving DecidableEq, Repr

/-- The Python enum value string of an `Arch` member (`Arch.ARM64.value`). -/
def Arch.value : Arch → String
  | .ARM64 => "arm64"
  | .X64 => "x64"

/-- Embeds `Arch.to_openstack` (config.py lines 28-39): a `match` on the two
enum members returning the OpenStack architecture string, followed by an
unconditional `raise ValueError` that is reached only if the match falls
through. -/
def Arch.to_openstack (a : Arch) : Except PyErr String :=
  if a = Arch.ARM64 then .ok "aarch64"
  else if a = Arch.X64 then .ok "x86_64"
  else .error PyErr.valueError

/-- Embeds `ARCHITECTURES_ARM64 = {"aarch64", "arm64"}` (config.py line 42). -/
def ARCHITECTURES_ARM64 : List String := ["aarch64", "arm64"]

/-- Embeds `ARCHITECTURES_X86 = {"x86_64"}` (config.py line 43). -/
def ARCHITECTURES_X86 : List String := ["x86_64"]

/-- Embeds `get_supported_arch` (config.py lines 46-62), parameterised by the
host machine string that `platform.machine()` reports. -/
def get_supported_arch (machine : String) : Except PyErr Arch :=
  if machine ∈ ARCHITECTURES_ARM64 then .ok Arch.ARM64
  else if machine ∈ ARCHITECTURES_X86 then .ok Arch.X64
  else .error PyErr.unsupportedArchitectureError

/-- Embeds `config.BaseImage` (config.py lines 65-74): enumeration of the two
supported Ubuntu LTS bases. -/
inductive BaseImage where
  | JAMMY
  | NOBLE
deriving DecidableEq, Repr

/-- The Python enum value string of a `BaseImage` member. -/
def BaseImage.value : BaseImage → String
  | .JAMMY => "jammy"
  | .NOBLE => "noble"

/-- Embeds `BaseImage.get_version` (config.py lines 76-90). -/
def BaseImage.get_version : BaseImage → String
  | .JAMMY => "22.04"
  | .NOBLE => "24.04"

/-- Embeds the Python enum call `BaseImage(str)`: looks the string up among the
member values, raising `ValueError` when it is not one of them. -/
def BaseImage.ofValue (s : String) : Except PyErr BaseImage :=
  if s = "jammy" then .ok BaseImage.JAMMY
  else if s = "noble" then .ok BaseImage.NOBLE
  else .error PyErr.valueError

/-- Embeds `LTS_IMAGE_VERSION_TAG_MAP` (config.py line 107): version tag to
codename. -/
def LTS_IMAGE_VERSION_TAG_MAP : List (String × String) :=
  [("22.04", "jammy"), ("24.04", "noble")]

/-- Embeds `BaseImage.from_str` (config.py lines 92-104): a version tag is
first translated through `LTS_IMAGE_VERSION_TAG_MAP`, then the enum
constructor is applied. -/
def BaseImage.from_str (tag_or_name : String) : Except PyErr BaseImage :=
  match LTS_IMAGE_VERSION_TAG_MAP.lookup tag_or_name with
  | some v => BaseImage.ofValue v
  | none => BaseImage.ofValue tag_or_name

/-- Embeds Python `str.split(sep)` on a single-character separator, helper:
returns the first chunk and the list of remaining chunks, so that the result
of a split is non-empty by construction (as in Python, where
`"".split(":") == [""]`). -/
def pySplitAux (sep : Char) : List Char → List Char × List (List Char)
  | [] => ([], [])
  | a :: rest =>
    if a = sep then ([], (pySplitAux sep rest).1 :: (pySplitAux sep rest).2)
    else (a :: (pySplitAux sep rest).1, (pySplitAux sep rest).2)

/-- Embeds Python `value.split(sep)` for a one-character separator. -/
def pySplit (sep : Char) (l : List Char) : List (List Char) :=
  (pySplitAux sep l).1 :: (pySplitAux sep l).2

/-- Embeds Python `str.lower()` (the inputs at hand are ASCII). -/
def pyLower (l : List Char) : List Char := l.map Char.toLower

/-- The literal `"true"` compared against in `Snap.from_str`
(config.py line 179). -/
def trueLit : List Char := "true".toList

/-- Embeds Python `str(bool).lower()` as used by `Snap.to_string`
(config.py line 188): `str(True).lower() == "true"`, `str(False).lower() ==
"false"`. -/
def pyBoolLower : Bool → List Char
  | true => "true".toList
  | false => "false".toList

/-- Embeds the `config.Snap` dataclass (config.py lines 140-152); its string
fields are Python strings modelled as `List Char`. -/
structure Snap where
  name : List Char
  channel : List Char
  classic : Bool
deriving DecidableEq, Repr

/-- The body of `Snap.from_str` after `values = value.split(":")`
(config.py lines 167-180): fewer than two fields raise `ValueError`, exactly
two fields give `classic=False`, three or more fields read `classic` from
`values[2].lower() == "true"` (fields past the third are never read). -/
def snapOfFields : List (List Char) → Except PyErr Snap
  | [n, c] => .ok ⟨n, c, false⟩
  | n :: c :: b :: _ => .ok ⟨n, c, pyLower b == trueLit⟩
  | _ => .error PyErr.valueError

/-- Embeds `Snap.from_str` (config.py lines 154-180). -/
def Snap.from_str (value : List Char) : Except PyErr Snap :=
  snapOfFields (pySplit ':' value)

/-- Embeds `Snap.to_string` (config.py lines 182-188):
`f"{self.name}:{self.channel}:{str(self.classic).lower()}"`. -/
def Snap.to_string (s : Snap) : List Char :=
  s.name ++ ':' :: (s.channel ++ ':' :: pyBoolLower s.classic)

/-- Embeds the `config.ImageConfig` dataclass (config.py lines 191-207). -/
structure ImageConfig where
  arch : Arch
  base : BaseImage
  runner_version : String
  name : String
  snaps : List Snap

theorem pySplitAux_of_not_mem {sep : Char} {l : List Char} (h : sep ∉ l) :
    pySplitAux sep l = (l, []) := by
  induction l with
  | nil => rfl
  | cons a rest ih =>
    rw [List.mem_cons, not_or] at h
    have ha : ¬(a = sep) := fun hh => h.1 hh.symm
    simp [pySplitAux, ha, ih h.2]

theorem pySplitAux_append {sep : Char} {a r : List Char} (h : sep ∉ a) :
    pySplitAux sep (a ++ sep :: r) =
      (a, (pySplitAux sep r).1 :: (pySplitAux sep r).2) := by
  induction a with
  | nil => simp [pySplitAux]
  | cons x xs ih =>
    rw [List.mem_cons, not_or] at h
    have hx : ¬(x = sep) := fun hh => h.1 hh.symm
    simp [pySplitAux, hx, ih h.2]

theorem pySplitAux_chunks (sep : Char) (l : List Char) :
    sep ∉ (pySplitAux sep l).1 ∧ ∀ p ∈ (pySplitAux sep l).2, sep ∉ p := by
  induction l with
  | nil => simp [pySplitAux]
  | cons a rest ih =>
    by_cases ha : a = sep
    · subst ha
      simp only [pySplitAux, if_pos rfl]
      refine ⟨by simp, ?_⟩
      intro p hp
      rcases List.mem_cons.mp hp with rfl | hp2
      · exact ih.1
      · exact ih.2 p hp2
    · simp only [pySplitAux, if_neg ha]
      refine ⟨?_, ih.2⟩
      intro hmem
      rcases List.mem_cons.mp hmem with hs | hs
      · exact ha hs.symm
      · exact ih.1 hs

theorem pySplitAux_snd_nil_iff (sep : Char) (l : List Char) :
    (pySplitAux sep l).2 = [] ↔ sep ∉ l := by
  induction l with
  | nil => simp [pySplitAux]
  | cons a rest ih =>
    by_cases ha : a = sep
    · subst ha; simp [pySplitAux]
    · have ha2 : ¬(sep = a) := fun hh => ha hh.symm
      simp [pySplitAux, ha, ha2, ih]

theorem pySplit_chunks (sep : Char) (l : List Char) :
    ∀ p ∈ pySplit sep l, sep ∉ p := by
  intro p hp
  simp only [pySplit] at hp
  rcases List.mem_cons.mp hp with rfl | hp2
  · exact (pySplitAux_chunks sep l).1
  · exact (pySplitAux_chunks sep l).2 p hp2

/-- C4: `BaseImage.from_str` is a two-sided inverse of the codename /
version-tag mapping — for every base, feeding the codename or the version tag
yields the same canonical member, and feeding the canonical value's own tag
(via `get_version`) back yields that member. -/
theorem baseimage_from_str_two_sided_inverse (b : BaseImage) :
    BaseImage.from_str b.value = .ok b ∧
    BaseImage.from_str (BaseImage.get_version b) = .ok b ∧
    BaseImage.from_str b.value = BaseImage.from_str (BaseImage.get_version b) := by
  cases b <;> exact ⟨rfl, rfl, rfl⟩

/-- C5: `get_supported_arch` returns `ARM64` exactly on machine strings
`"aarch64"` and `"arm64"`, returns `X64` exactly on `"x86_64"`, and raises
`UnsupportedArchitectureError` exactly on every other machine string. -/
theorem get_supported_arch_spec (m : String) :
    (get_supported_arch m = .ok Arch.ARM64 ↔ (m = "aarch64" ∨ m = "arm64")) ∧
    (get_supported_arch m = .ok Arch.X64 ↔ m = "x86_64") ∧
    (get_supported_arch m = .error PyErr.unsupportedArchitectureError ↔
      ¬(m = "aarch64" ∨ m = "arm64" ∨ m = "x86_64")) := by
  by_cases h1 : m = "aarch64" <;> by_cases h2 : m = "arm64" <;> by_cases h3 : m = "x86_64" <;>
    simp_all [get_supported_arch, ARCHITECTURES_ARM64, ARCHITECTURES_X86]

/-- C7: `Arch.to_openstack` is total on the architecture enumeration — ARM64
maps to `"aarch64"`, X64 to `"x86_64"`, and the trailing `raise ValueError`
branch is unreachable for every member. -/
theorem arch_to_openstack_total (a : Arch) :
    Arch.to_openstack Arch.ARM64 = .ok "aarch64" ∧
    Arch.to_openstack Arch.X64 = .ok "x86_64" ∧
    (Arch.to_openstack a).isOk = true := by
  cases a <;> exact ⟨rfl, rfl, rfl⟩

/-- C3: `Snap.from_str` with exactly two colon-delimited fields yields
`{name, channel, classic=false}`; with exactly three fields `classic` is the
case-insensitive comparison of the third field with `"true"`; with fewer than
two fields (equivalently, no colon in the input) it raises `ValueError`. -/
theorem snap_from_str_fields_spec (v : List Char) :
    (∀ n c, pySplit ':' v = [n, c] → Snap.from_str v = .ok ⟨n, c, false⟩) ∧
    (∀ n c b, pySplit ':' v = [n, c, b] →
      Snap.from_str v = .ok ⟨n, c, pyLower b == trueLit⟩) ∧
    ((pySplit ':' v).length < 2 → Snap.from_str v = .error PyErr.valueError) ∧
    ((pySplit ':' v).length < 2 ↔ ':' ∉ v) := by
  refine ⟨?_, ?_, ?_, ?_⟩
  · intro n c h
    simp [Snap.from_str, h, snapOfFields]
  · intro n c b h
    simp [Snap.from_str, h, snapOfFields]
  · intro h
    have h2 : (pySplitAux ':' v).2 = [] := by
      simp only [pySplit, List.length_cons] at h
      exact List.length_eq_zero.mp (by omega)
    simp [Snap.from_str, pySplit, h2, snapOfFields]
  · constructor
    · intro h
      have h2 : (pySplitAux ':' v).2 = [] := by
        simp only [pySplit, List.length_cons] at h
        exact List.length_eq_zero.mp (by omega)
      exact (pySplitAux_snd_nil_iff ':' v).mp h2
    · intro h
      have h2 := (pySplitAux_snd_nil_iff ':' v).mpr h
      simp [pySplit, h2]

/-- Witness for C3: concrete two-field, three-field and colon-free inputs. -/
theorem snap_from_str_fields_spec_witness :
    Snap.from_str ("go:stable".toList) =
      .ok ⟨"go".toList, "stable".toList, false⟩ ∧
    Snap.from_str ("go:stable:True".toList) =
      .ok ⟨"go".toList, "stable".toList, pyLower ("True".toList) == trueLit⟩ ∧
    (pyLower ("True".toList) == trueLit) = true ∧
    Snap.from_str ("go".toList) = .error PyErr.valueError :=
  ⟨(snap_from_str_fields_spec _).1 _ _ (by decide),
   (snap_from_str_fields_spec _).2.1 _ _ _ (by decide),
   by decide,
   (snap_from_str_fields_spec _).2.2.1 (by decide)⟩

/-- C8: `Snap.to_string` followed by `Snap.from_str` is the identity on every
`Snap` whose name and channel contain no colon, and in particular on every
`Snap` that `Snap.from_str` itself produced. -/
theorem snap_roundtrip_spec :
    (∀ s : Snap, ':' ∉ s.name → ':' ∉ s.channel →
      Snap.from_str (Snap.to_string s) = .ok s) ∧
    (∀ (v : List Char) (s : Snap), Snap.from_str v = .ok s →
      Snap.from_str (Snap.to_string s) = .ok s) := by
  have hbt : ∀ cl : Bool, (pyLower (pyBoolLower cl) == trueLit) = cl := by decide
  have key : ∀ (n c : List Char) (cl : Bool), ':' ∉ n → ':' ∉ c →
      Snap.from_str (Snap.to_string ⟨n, c, cl⟩) = .ok ⟨n, c, cl⟩ := by
    intro n c cl hn hc
    have hb : ':' ∉ pyBoolLower cl := by cases cl <;> decide
    have h1 : pySplit ':' (Snap.to_string ⟨n, c, cl⟩) = [n, c, pyBoolLower cl] := by
      show pySplit ':' (n ++ ':' :: (c ++ ':' :: pyBoolLower cl)) = _
      simp [pySplit, pySplitAux_append hn, pySplitAux_append hc,
        pySplitAux_of_not_mem hb]
    simp [Snap.from_str, h1, snapOfFields, hbt]
  constructor
  · intro s hn hc
    obtain ⟨n, c, cl⟩ := s
    exact key n c cl hn hc
  · intro v s h
    have hch := pySplit_chunks ':' v
    simp only [Snap.from_str] at h
    generalize hL : pySplit ':' v = L at h hch
    rcases L with _ | ⟨n, L⟩
    · simp [snapOfFields] at h
    rcases L with _ | ⟨c, L⟩
    · simp [snapOfFields] at h
    rcases L with _ | ⟨b, L⟩
    · simp only [snapOfFields, Except.ok.injEq] at h
      subst h
      exact key n c false (hch n (by simp)) (hch c (by simp))
    · simp only [snapOfFields, Except.ok.injEq] at h
      subst h
      exact key n c _ (hch n (by simp)) (hch c (by simp))

/-- Witness for C8: a concrete classic snap round-trips through
`to_string` and `from_str`, both directly and after a parse. -/
theorem snap_roundtrip_spec_witness :
    Snap.from_str (Snap.to_string ⟨"juju".toList, "stable".toList, true⟩) =
      .ok ⟨"juju".toList, "stable".toList, true⟩ ∧
    Snap.from_str (Snap.to_string ⟨"gh".toList, "latest/edge".toList, false⟩) =
      .ok ⟨"gh".toList, "latest/edge".toList, false⟩ :=
  ⟨snap_roundtrip_spec.1 _ (by decide) (by decide),
   snap_roundtrip_spec.2 ("gh:latest/edge".toList) _ rfl⟩

/-- C9: `Snap.from_str` accepts over-long inputs — with four or more
colon-delimited fields it succeeds and builds the `Snap` from the first three
fields only, ignoring the rest. -/
theorem snap_from_str_ignores_extra_fields (v n c b : List Char)
    (rest : List (List Char)) (h : pySplit ':' v = n :: c :: b :: rest)
    (_hr : rest ≠ []) :
    Snap.from_str v = .ok ⟨n, c, pyLower b == trueLit⟩ := by
  simp [Snap.from_str, h, snapOfFields]

/-- Witness for C9: a five-field input parses to the first three fields. -/
theorem snap_from_str_ignores_extra_fields_witness :
    Snap.from_str ("a:b:true:zzz:w".toList) =
      .ok ⟨"a".toList, "b".toList, pyLower ("true".toList) == trueLit⟩ :=
  snap_from_str_ignores_extra_fields _ _ _ _ ["zzz".toList, "w".toList]
    (by decide) (by simp)

/-- Embeds the exception classes of errors.py (lines 7-89), one constructor
per class, plus `exceptionBase` for the Python builtin `Exception` both
families derive from. -/
inductive ErrClass where
  | exceptionBase
  | imageBuilderBaseError
  | builderSetupError
  | dependencyInstallError
  | networkBlockDeviceError
  | unsupportedArchitectureError
  | cleanBuildStateError
  | baseImageDownloadError
  | imageResizeError
  | imageMountError
  | resizePartitionError
  | unattendedUpgradeDisableError
  | systemUserConfigurationError
  | permissionConfigurationError
  | yqBuildError
  | yarnInstallError
  | imageCompressError
  | buildImageError
  | openstackBaseError
  | unauthorizedError
  | uploadImageError
  | openstackError
deriving DecidableEq, Fintype, Repr

/-- The direct superclass of each class, read off the class headers of
errors.py (e.g. `class DependencyInstallError(BuilderSetupError)`). -/
def directBase : ErrClass → Option ErrClass
  | .exceptionBase => none
  | .imageBuilderBaseError => some .exceptionBase
  | .builderSetupError => some .imageBuilderBaseError
  | .dependencyInstallError => some .builderSetupError
  | .networkBlockDeviceError => some .builderSetupError
  | .unsupportedArchitectureError => some .imageBuilderBaseError
  | .cleanBuildStateError => some .imageBuilderBaseError
  | .baseImageDownloadError => some .imageBuilderBaseError
  | .imageResizeError => some .imageBuilderBaseError
  | .imageMountError => some .imageBuilderBaseError
  | .resizePartitionError => some .imageBuilderBaseError
  | .unattendedUpgradeDisableError => some .imageBuilderBaseError
  | .systemUserConfigurationError => some .imageBuilderBaseError
  | .permissionConfigurationError => some .imageBuilderBaseError
  | .yqBuildError => some .imageBuilderBaseError
  | .yarnInstallError => some .imageBuilderBaseError
  | .imageCompressError => some .imageBuilderBaseError
  | .buildImageError => some .imageBuilderBaseError
  | .openstackBaseError => some .exceptionBase
  | .unauthorizedError => some .openstackBaseError
  | .uploadImageError => some .openstackBaseError
  | .openstackError => some .openstackBaseError

/-- The superclass chain of a class, fuel-bounded (the hierarchy has depth at
most four: leaf → BuilderSetupError → ImageBuilderBaseError → Exception). -/
def superchain : Nat → ErrClass → List ErrClass
  | 0, e => [e]
  | n + 1, e =>
    e :: (match directBase e with
          | none => []
          | some p => superchain n p)

/-- Python `issubclass` on the embedded hierarchy (reflexive). -/
def isSubclassOf (c d : ErrClass) : Bool := (superchain 4 c).contains d

/-- Proper-subclass relation on the embedded hierarchy. -/
def isStrictDescendant (c d : ErrClass) : Bool := c != d && isSubclassOf c d

/-- All embedded classes. -/
def allErrClasses : List ErrClass :=
  [.exceptionBase, .imageBuilderBaseError, .builderSetupError,
   .dependencyInstallError, .networkBlockDeviceError,
   .unsupportedArchitectureError, .cleanBuildStateError,
   .baseImageDownloadError, .imageResizeError, .imageMountError,
   .resizePartitionError, .unattendedUpgradeDisableError,
   .systemUserConfigurationError, .permissionConfigurationError,
   .yqBuildError, .yarnInstallError, .imageCompressError, .buildImageError,
   .openstackBaseError, .unauthorizedError, .uploadImageError,
   .openstackError]

/-- A class with no subclass in errors.py. -/
def isErrLeaf (e : ErrClass) : Bool :=
  allErrClasses.all fun c => directBase c != some e

/-- The leaf classes of the hierarchy. -/
def errLeaves : List ErrClass := allErrClasses.filter isErrLeaf

/-- The build-pipeline error classes: every strict descendant of
`ImageBuilderBaseError`. -/
def pipelineErrors : List ErrClass :=
  [.builderSetupError, .dependencyInstallError, .networkBlockDeviceError,
   .unsupportedArchitectureError, .cleanBuildStateError,
   .baseImageDownloadError, .imageResizeError, .imageMountError,
   .resizePartitionError, .unattendedUpgradeDisableError,
   .systemUserConfigurationError, .permissionConfigurationError,
   .yqBuildError, .yarnInstallError, .imageCompressError, .buildImageError]

/-- The cloud-interaction error classes: every strict descendant of
`OpenstackBaseError`. -/
def cloudErrors : List ErrClass :=
  [.unauthorizedError, .uploadImageError, .openstackError]

/-- The failing stage each concrete error class names, read off the class
names and docstrings of errors.py. The two family roots and the builtin
`Exception` name no stage. -/
inductive Stage where
  | builderSetup
  | dependencyInstall
  | networkBlockDevice
  | unsupportedArchitecture
  | cleanBuildState
  | baseImageDownload
  | imageResize
  | imageMount
  | resizePartition
  | unattendedUpgradeDisable
  | systemUserConfiguration
  | permissionConfiguration
  | yqBuild
  | yarnInstall
  | imageCompress
  | buildImage
  | unauthorized
  | uploadImage
  | openstackApi
deriving DecidableEq, Repr

/-- Stage named by each error class (`none` for the roots). -/
def stageOf : ErrClass → Option Stage
  | .exceptionBase => none
  | .imageBuilderBaseError => none
  | .openstackBaseError => none
  | .builderSetupError => some .builderSetup
  | .dependencyInstallError => some .dependencyInstall
  | .networkBlockDeviceError => some .networkBlockDevice
  | .unsupportedArchitectureError => some .unsupportedArchitecture
  | .cleanBuildStateError => some .cleanBuildState
  | .baseImageDownloadError => some .baseImageDownload
  | .imageResizeError => some .imageResize
  | .imageMountError => some .imageMount
  | .resizePartitionError => some .resizePartition
  | .unattendedUpgradeDisableError => some .unattendedUpgradeDisable
  | .systemUserConfigurationError => some .systemUserConfiguration
  | .permissionConfigurationError => some .permissionConfiguration
  | .yqBuildError => some .yqBuild
  | .yarnInstallError => some .yarnInstall
  | .imageCompressError => some .imageCompress
  | .buildImageError => some .buildImage
  | .unauthorizedError => some .unauthorized
  | .uploadImageError => some .uploadImage
  | .openstackError => some .openstackApi

/-- C6: the error taxonomy is two disjoint families — no class is a subclass
of both `ImageBuilderBaseError` and `OpenstackBaseError`; the strict
descendants of `ImageBuilderBaseError` are exactly the build-pipeline error
classes and the strict descendants of `OpenstackBaseError` are exactly the
cloud-interaction ones; and every leaf class names exactly one failing stage,
no two leaves naming the same stage. -/
theorem error_taxonomy_two_disjoint_families :
    (∀ e : ErrClass,
      ¬(isSubclassOf e ErrClass.imageBuilderBaseError = true ∧
        isSubclassOf e ErrClass.openstackBaseError = true)) ∧
    (∀ e : ErrClass,
      isStrictDescendant e ErrClass.imageBuilderBaseError = true ↔
        e ∈ pipelineErrors) ∧
    (∀ e : ErrClass,
      isStrictDescendant e ErrClass.openstackBaseError = true ↔
        e ∈ cloudErrors) ∧
    (errLeaves.all fun e => (stageOf e).isSome) = true ∧
    (errLeaves.map stageOf).Nodup := by
  refine ⟨?_, ?_, ?_, by decide, by decide⟩ <;> decide

/-- One external-process invocation recorded by the model of
`subprocess.check_call` (cli.py line 261). -/
structure SubprocessCall where
  args : List String
deriving DecidableEq, Repr

/-- Embeds `subprocess.check_call(argv)`: runs the process (recorded in the
trace) and then checks its exit status, raising `CalledProcessError` when it
is non-zero. The environment's behaviour is the oracle `exitOf`, giving the
exit status of each argument vector. -/
def check_call (exitOf : List String → Int) (argv : List String) :
    List SubprocessCall × Except PyErr Unit :=
  ([⟨argv⟩],
   if exitOf argv = 0 then .ok () else .error PyErr.calledProcessError)

/-- Embeds the callback step at the end of `cli.run` (cli.py lines 259-261),
reached after a build has completed and produced `image_ids`:
`if callback_script: subprocess.check_call([str(callback_script), image_ids])`.
Returns the subprocess trace and the step's outcome. -/
def cli_run_callback_step (exitOf : List String → Int)
    (callback_script : Option String) (image_ids : String) :
    List SubprocessCall × Except PyErr Unit :=
  match callback_script with
  | none => ([], .ok ())
  | some script => check_call exitOf [script, image_ids]

/-- C1 counterexample: with a configured callback whose exit status is 1, the
callback step raises `CalledProcessError` — `subprocess.check_call` does
inspect the exit status, so a non-zero callback exit does change the run
command's outcome. -/
theorem cli_callback_nonzero_exit_raises_counterexample :
    (cli_run_callback_step (fun _ => 1) (some "/home/ubuntu/callback.sh")
        "image-id-1").2 = .error PyErr.calledProcessError := rfl

/-- C1 (amended): after a successful build the configured callback is invoked
exactly once, as an external executable with the image identifier(s) as its
sole argument; its exit status is inspected by `subprocess.check_call`, and
the step succeeds iff the callback exits with status zero (no callback, no
invocation). -/
theorem cli_callback_invocation_spec (exitOf : List String → Int)
    (script image_ids : String) :
    (cli_run_callback_step exitOf (some script) image_ids).1 =
      [⟨[script, image_ids]⟩] ∧
    ((cli_run_callback_step exitOf (some script) image_ids).2 = .ok () ↔
      exitOf [script, image_ids] = 0) ∧
    cli_run_callback_step exitOf none image_ids = ([], .ok ()) := by
  refine ⟨rfl, ?_, rfl⟩
  by_cases h : exitOf [script, image_ids] = 0 <;>
    simp [cli_run_callback_step, check_call, h]

/-- The field names of the `ImageConfig` dataclass (config.py lines 191-207);
none has a default, so a keyword construction must supply exactly these. -/
def imageConfigFields : List String :=
  ["arch", "base", "runner_version", "name", "snaps"]

/-- The keyword names `cli.run` passes to `config.ImageConfig` on the local
branch (cli.py lines 221-227): `arch`, `base`, `juju`, `runner_version`,
`name`. -/
def cliRunImageConfigKwargs : List String :=
  ["arch", "base", "juju", "runner_version", "name"]

/-- Embeds a Python dataclass keyword construction: `TypeError` when an
unexpected keyword is passed or a required (default-less) field is missing. -/
def dataclassKwCall (fields kwargs : List String) : Except PyErr Unit :=
  if (kwargs.all fun k => fields.contains k) &&
     (fields.all fun f => kwargs.contains f)
  then .ok () else .error PyErr.typeError

/-- Effects of the local branch of `cli.run` visible in the model. -/
inductive CliEffect where
  | builderRun
  | echo (out : String)
deriving DecidableEq, Repr

/-- Embeds the local (non-`--experimental-external`) branch of `cli.run`
(cli.py lines 218-232). Python evaluates the `config.ImageConfig(...)`
argument before entering `builder.run`, so the keyword construction is the
first step; only if it succeeds does `builder.run` execute (the `builder`
module itself is outside the observed sources, so its result is the oracle
`builder_run_result`) followed by `click.echo`. -/
def cli_run_local (arch : Arch) (base : BaseImage)
    (cloud_name image_name juju runner_version : String)
    (keep_revisions : Int) (builder_run_result : String) :
    List CliEffect × Except PyErr Unit :=
  match dataclassKwCall imageConfigFields cliRunImageConfigKwargs with
  | .error e => ([], .error e)
  | .ok _ =>
    ([CliEffect.builderRun, CliEffect.echo builder_run_result], .ok ())

/-- C10: every invocation of the CLI run command's local branch raises
`TypeError` while constructing `ImageConfig`, before any build starts —
`juju` is passed but is not an `ImageConfig` field, and the required `snaps`
field is not passed — so the branch never runs the builder and never returns
image ids. -/
theorem cli_run_local_always_type_error (arch : Arch) (base : BaseImage)
    (cloud_name image_name juju runner_version : String)
    (keep_revisions : Int) (builder_run_result : String) :
    cli_run_local arch base cloud_name image_name juju runner_version
        keep_revisions builder_run_result = ([], .error PyErr.typeError) ∧
    "juju" ∈ cliRunImageConfigKwargs ∧ "juju" ∉ imageConfigFields ∧
    "snaps" ∈ imageConfigFields ∧ "snaps" ∉ cliRunImageConfigKwargs :=
  ⟨rfl, by decide, by decide, by decide, by decide⟩

/-- Modelled from the spec: `_generate_installation_script` (openstack_builder.py
lines 113-115) is a stub (`pass`) in the observed source; per the spec (§4.5)
it generates the first-boot provisioning script from the runner version. The
script is modelled as an opaque value determined by `runner_version`. -/
inductive Script where
  | generated (runner_version : String)
deriving DecidableEq, Repr

/-- Modelled from the spec: the installation-script generator (see `Script`). -/
def generate_installation_script (runner_version : String) : Script :=
  .generated runner_version

/-- Cloud-API operations the external builder's `run` can perform, in trace
order. `deleteServer` is included so its absence from a trace is statable. -/
inductive CloudOp where
  | createServer (boot_script : Script) (flavor network : String)
      (arch : Arch) (base : BaseImage)
  | waitForInstallComplete
  | createImageSnapshot (image_name : String)
  | deleteServer
deriving DecidableEq, Repr

/-- The opaque cloud connection capability: what image id
`create_image_snapshot` returns for a given image name. -/
structure Conn where
  snapshotId : String → String

/-- Embeds `openstack_builder.run` (openstack_builder.py lines 80-110):
generate the installation script, `conn.create_server(script, flavor,
network, arch, base)`, `_wait_for_install_complete(builder)` (a stub in the
source, modelled from the spec as the bounded completion poll),
`conn.create_image_snapshot(image_name)`, and return the snapshot image id.
No other cloud operation occurs in the body. -/
def openstack_builder_run (conn : Conn) (arch : Arch) (base : BaseImage)
    (cloud_name flavor network runner_version image_name : String) :
    List CloudOp × String :=
  ([CloudOp.createServer (generate_installation_script runner_version)
      flavor network arch base,
    CloudOp.waitForInstallComplete,
    CloudOp.createImageSnapshot image_name],
   conn.snapshotId image_name)

/-- C2 counterexample: a concrete external build run never performs
`deleteServer` — the transient builder VM is not deleted by
`openstack_builder.run`, contrary to the claim. -/
theorem openstack_builder_run_no_delete_counterexample :
    CloudOp.deleteServer ∉
      (openstack_builder_run ⟨fun _ => "snapshot-id-1"⟩ Arch.X64
        BaseImage.JAMMY "builder-cloud" "m1.small" "net0" "" "runner-image").1 := by
  decide

/-- C2 (amended): the external builder's `run` generates an installation
script, launches the builder VM with that script as boot instructions on the
caller-selected flavor and network, waits for install completion, converts
the VM to an image snapshot and returns the snapshot image id — and performs
no other cloud operation; in particular it never deletes the transient VM. -/
theorem openstack_builder_run_trace_spec (conn : Conn) (arch : Arch)
    (base : BaseImage)
    (cloud_name flavor network runner_version image_name : String) :
    (openstack_builder_run conn arch base cloud_name flavor network
        runner_version image_name).1 =
      [CloudOp.createServer (generate_installation_script runner_version)
         flavor network arch base,
       CloudOp.waitForInstallComplete,
       CloudOp.createImageSnapshot image_name] ∧
    (openstack_builder_run conn arch base cloud_name flavor network
        runner_version image_name).2 = conn.snapshotId image_name ∧
    CloudOp.deleteServer ∉
      (openstack_builder_run conn arch base cloud_name flavor network
        runner_version image_name).1 := by
  refine ⟨rfl, rfl, ?_⟩
  simp [openstack_builder_run]

end GithubRunnerImageBuilder
